import Mathlib

/-!
# Customer-journey dashboard (frontend/src/App.jsx)

A shallow embedding of the single React component `App`:

* the view state held by the four `useState` hooks,
* the load cycle `loadData` run by the mount effect,
* the render function, with its guards and the data it hands to the charts,
* the Sankey graph derived from the edge list.

Modelling conventions.

* JSON numbers are modelled by `Int`.  The component does no arithmetic on them;
  the only thing it asks of a number is whether it is truthy, i.e. non-zero.
* A value that may be `null` or `undefined` in the JavaScript is an `Option`:
  `none` is the nullish value.  The three state cells `overview`, `revenue`,
  `edges` receive whatever body the backend sent, and a JSON body may be `null`;
  likewise every field the render reads from the overview and revenue objects
  (`total_revenue`, `total_orders`, `by_category`, `monthly`) may be missing.
* A JavaScript exception raised while rendering is an `Except.error`.  The only
  exceptions the render can raise on these values are the two `TypeError`s of
  reading a property of a nullish value: `total_orders.toLocaleString` and
  `edges.length`.
* The elements of `by_category` and `monthly` are handed to the charts without being
  read; the elements of the edge list are edge objects with their three fields.
* `console.error` writes to the console only; it is not part of the view state
  and is not modelled.
* `toLocaleString` formatting is not modelled: the overview block carries the two
  numbers it displays.
-/

namespace App

/-! ## Data model -/

/-- Body of `/analytics/overview`.  Either field may be missing from the object (or be
`null`): the render tests `total_revenue` for truthiness and reads `total_orders` without
a test. -/
structure OverviewStats where
  total_revenue : Option Int
  total_orders : Option Int
  deriving DecidableEq, Repr

/-- One entry of `by_category`. -/
structure CategoryAmount where
  category : String
  amount : Int
  deriving DecidableEq, Repr

/-- One entry of `monthly`. -/
structure MonthAmount where
  month : String
  amount : Int
  deriving DecidableEq, Repr

/-- Body of `/analytics/revenue`.  Either field may be missing from the object,
which is what the optional chaining `revenue?.by_category?.length` caters for. -/
structure RevenueReport where
  by_category : Option (List CategoryAmount)
  monthly : Option (List MonthAmount)
  deriving DecidableEq, Repr

/-- One element of the body of `/journey/edges`. -/
structure JourneyEdge where
  source : String
  target : String
  value : Int
  deriving DecidableEq, Repr

/-- The four `useState` cells of `App`. -/
structure ViewState where
  overview : Option OverviewStats
  revenue : Option RevenueReport
  edges : Option (List JourneyEdge)
  loading : Bool
  deriving DecidableEq, Repr

/-- The initial values given to `useState`: `null`, `null`, `[]`, `true`. -/
def initialState : ViewState :=
  ⟨none, none, some [], true⟩

/-! ## The load cycle -/

/-- Why `fetch(url).then((r) => r.json())` rejected. -/
inductive FetchError where
  | networkError
  | nonJsonBody
  deriving DecidableEq, Repr

/-- The settled outcome of one `fetch(url).then((r) => r.json())`. -/
inductive FetchResult (α : Type) where
  | body (parsed : α)
  | failed (reason : FetchError)
  deriving DecidableEq, Repr

/-- The outcome of `await Promise.all([p1, p2, p3])` once the three promises have settled:
the triple of bodies when all three fulfilled, a rejection as soon as one rejected. -/
def promiseAll {α β γ : Type} (r1 : FetchResult α) (r2 : FetchResult β) (r3 : FetchResult γ) :
    Option (α × β × γ) :=
  match r1, r2, r3 with
  | .body a, .body b, .body c => some (a, b, c)
  | _, _, _ => none

/-- The function `loadData` of the mount effect.  In the `try` block the three setters run only
after `Promise.all` fulfilled; the `catch` block only logs; the `finally` block clears
`loading`. -/
def loadData (s : ViewState)
    (ov : FetchResult (Option OverviewStats))
    (rev : FetchResult (Option RevenueReport))
    (ed : FetchResult (Option (List JourneyEdge))) : ViewState :=
  let afterTry : ViewState :=
    match promiseAll ov rev ed with
    | some (o, r, e) => ⟨o, r, e, s.loading⟩
    | none => s
  ⟨afterTry.overview, afterTry.revenue, afterTry.edges, false⟩

/-! ## The Sankey graph -/

/-- `Set.prototype.add`: a value already in the set is ignored, a new one is appended
(JavaScript sets keep insertion order). -/
def setAdd (s : List String) (x : String) : List String :=
  if x ∈ s then s else s ++ [x]

/-- The expression `Array.from(new Set(xs))`: the values of `xs` added one by one to an
empty set, listed in insertion order. -/
def arrayFromSet (xs : List String) : List String :=
  xs.foldl setAdd []

/-- A node object, the value of `(name) => (name)` wrapped in an object. -/
structure SankeyNode where
  name : String
  deriving DecidableEq, Repr

/-- A link object. -/
structure SankeyLink where
  source : String
  target : String
  value : Int
  deriving DecidableEq, Repr

/-- The object passed as `data` to `Sankey`. -/
structure SankeyData where
  nodes : List SankeyNode
  links : List SankeyLink
  deriving DecidableEq, Repr

/-- The `data` expression of the `Sankey` element. -/
def sankeyData (edges : List JourneyEdge) : SankeyData :=
  ⟨(arrayFromSet (edges.flatMap (fun e => [e.source, e.target]))).map (fun name => ⟨name⟩),
   edges.map (fun e => ⟨e.source, e.target, e.value⟩)⟩

/-- The names of the nodes of a Sankey graph, in order. -/
def SankeyData.nodeNames (d : SankeyData) : List String :=
  d.nodes.map (fun n => n.name)

/-! ## Rendering -/

/-- A JavaScript exception: the `TypeError` raised by reading the property `property` of
`null` or `undefined`. -/
inductive JsError where
  | typeError (property : String)
  deriving DecidableEq, Repr

/-- The props of a `BarChart` with its `XAxis` and `Bar` children. -/
structure BarChartProps (α : Type) where
  heading : String
  data : List α
  xAxisKey : String
  barKey : String
  fill : String
  deriving DecidableEq, Repr

/-- The props of the `Sankey` element, with the heading above it. -/
structure SankeyProps where
  heading : String
  data : SankeyData
  nodePadding : Nat
  deriving DecidableEq, Repr

/-- What the expression `overview && overview.total_revenue && (...)` leaves in the page. -/
inductive OverviewSlot where
  /-- `null`: React renders nothing. -/
  | nothing
  /-- the number `0`: React renders it as the text "0". -/
  | zeroText
  /-- the block with the two totals. -/
  | block (total_revenue total_orders : Int)
  deriving DecidableEq, Repr

/-- The children of the dashboard `div`, after the title. -/
structure Dashboard where
  overview : OverviewSlot
  category : Option (BarChartProps CategoryAmount)
  monthly : Option (BarChartProps MonthAmount)
  sankey : Option SankeyProps
  deriving DecidableEq, Repr

/-- What `App` returns. -/
inductive View where
  | loadingScreen
  | dashboard (d : Dashboard)
  deriving DecidableEq, Repr

/-- The child `overview && overview.total_revenue && (...)`.  A nullish `overview` or
`total_revenue` is the value of the whole expression and renders nothing; the number `0` is
the value of the whole expression and renders as text; for a truthy `total_revenue` the block
is built, which calls `overview.total_orders.toLocaleString()` with no guard and throws when
`total_orders` is nullish. -/
def overviewSlot (overview : Option OverviewStats) : Except JsError OverviewSlot :=
  match overview with
  | none => .ok .nothing
  | some o =>
    match o.total_revenue with
    | none => .ok .nothing
    | some rev =>
      if rev = 0 then .ok .zeroText
      else
        match o.total_orders with
        | none => .error (.typeError "toLocaleString")
        | some orders => .ok (.block rev orders)

/-- Whether the overview cell can be rendered: it is `null`, or its `total_revenue` is falsy
(missing or `0`), or it carries `total_orders`. -/
def overviewComplete (overview : Option OverviewStats) : Bool :=
  match overview with
  | none => true
  | some o =>
    match o.total_revenue, o.total_orders with
    | some rev, none => decide (rev = 0)
    | _, _ => true

/-- The child `revenue?.by_category?.length > 0 && (...)`.  A nullish `revenue` or
`by_category` makes the chain `undefined`, and `undefined > 0` is `false`. -/
def categorySection (revenue : Option RevenueReport) : Option (BarChartProps CategoryAmount) :=
  match revenue with
  | none => none
  | some r =>
    match r.by_category with
    | none => none
    | some l =>
      if l.length > 0 then
        some ⟨"Revenue by Category", l, "category", "amount", "#4f46e5"⟩
      else none

/-- The child `revenue?.monthly?.length > 0 && (...)`. -/
def monthlySection (revenue : Option RevenueReport) : Option (BarChartProps MonthAmount) :=
  match revenue with
  | none => none
  | some r =>
    match r.monthly with
    | none => none
    | some l =>
      if l.length > 0 then
        some ⟨"Monthly Revenue Trend", l, "month", "amount", "#16a34a"⟩
      else none

/-- The child `edges.length > 0 && (...)`.  There is no optional chaining here: reading
`length` of `null` throws. -/
def sankeySection (edges : Option (List JourneyEdge)) : Except JsError (Option SankeyProps) :=
  match edges with
  | none => .error (.typeError "length")
  | some es =>
    if es.length > 0 then
      .ok (some ⟨"Customer Journey Flow (Product Transitions)", sankeyData es, 20⟩)
    else .ok none

/-- The body of `App` after the hooks: the loading screen while `loading`, otherwise the
dashboard, whose children are evaluated in source order; the first child that throws ends
the render. -/
def render (s : ViewState) : Except JsError View :=
  if s.loading then .ok .loadingScreen
  else
    match overviewSlot s.overview with
    | .error err => .error err
    | .ok ov =>
      match sankeySection s.edges with
      | .error err => .error err
      | .ok sk =>
        .ok (.dashboard ⟨ov, categorySection s.revenue, monthlySection s.revenue, sk⟩)

/-! ## Facts about the set construction -/

theorem mem_setAdd (s : List String) (x y : String) :
    y ∈ setAdd s x ↔ y ∈ s ∨ y = x := by
  unfold setAdd
  by_cases h : x ∈ s
  · simp only [h, if_true]
    constructor
    · intro hy
      exact Or.inl hy
    · rintro (hy | hy)
      · exact hy
      · exact hy ▸ h
  · simp [h]

theorem nodup_setAdd (s : List String) (x : String) (hs : s.Nodup) :
    (setAdd s x).Nodup := by
  unfold setAdd
  by_cases h : x ∈ s
  · simpa [h] using hs
  · simp only [h, if_false]
    rw [List.nodup_append]
    refine ⟨hs, List.nodup_singleton x, ?_⟩
    intro a ha hb
    rw [List.mem_singleton] at hb
    exact h (hb ▸ ha)

theorem mem_foldl_setAdd (xs : List String) :
    ∀ (acc : List String) (y : String), y ∈ xs.foldl setAdd acc ↔ y ∈ acc ∨ y ∈ xs := by
  induction xs with
  | nil => intro acc y; simp
  | cons x rest ih =>
    intro acc y
    rw [List.foldl_cons, ih, mem_setAdd, List.mem_cons]
    tauto

theorem nodup_foldl_setAdd (xs : List String) :
    ∀ acc : List String, acc.Nodup → (xs.foldl setAdd acc).Nodup := by
  induction xs with
  | nil => intro acc h; simpa using h
  | cons x rest ih =>
    intro acc h
    rw [List.foldl_cons]
    exact ih _ (nodup_setAdd acc x h)

theorem mem_arrayFromSet (xs : List String) (y : String) :
    y ∈ arrayFromSet xs ↔ y ∈ xs := by
  unfold arrayFromSet
  rw [mem_foldl_setAdd]
  simp

theorem nodup_arrayFromSet (xs : List String) : (arrayFromSet xs).Nodup := by
  unfold arrayFromSet
  exact nodup_foldl_setAdd xs [] List.nodup_nil

theorem nodeNames_sankeyData (edges : List JourneyEdge) :
    (sankeyData edges).nodeNames
      = arrayFromSet (edges.flatMap (fun e => [e.source, e.target])) := by
  simp [sankeyData, SankeyData.nodeNames, List.map_map, Function.comp_def]

theorem mem_endpoints (edges : List JourneyEdge) (n : String) :
    n ∈ edges.flatMap (fun e => [e.source, e.target])
      ↔ ∃ e ∈ edges, e.source = n ∨ e.target = n := by
  simp only [List.mem_flatMap, List.mem_cons, List.mem_singleton, List.not_mem_nil, or_false]
  constructor
  · rintro ⟨e, he, h | h⟩
    · exact ⟨e, he, Or.inl h.symm⟩
    · exact ⟨e, he, Or.inr h.symm⟩
  · rintro ⟨e, he, h | h⟩
    · exact ⟨e, he, Or.inl h.symm⟩
    · exact ⟨e, he, Or.inr h.symm⟩

/-! ## The Sankey graph: nodes, links, and the link invariant -/

/-- C1: the node names derived for the Sankey graph are exactly the edge endpoints: no name
occurs twice, a name is a node name if and only if it is the source or the target of some
edge, and for the edges X->Y, Y->Z the nodes are X, Y, Z, three in all. -/
theorem sankey_nodes_exactly_endpoints (edges : List JourneyEdge) :
    (sankeyData edges).nodeNames.Nodup
    ∧ (∀ n : String, n ∈ (sankeyData edges).nodeNames
        ↔ ∃ e ∈ edges, e.source = n ∨ e.target = n)
    ∧ (sankeyData [⟨"X", "Y", 5⟩, ⟨"Y", "Z", 3⟩]).nodes = [⟨"X"⟩, ⟨"Y"⟩, ⟨"Z"⟩]
    ∧ (sankeyData [⟨"X", "Y", 5⟩, ⟨"Y", "Z", 3⟩]).nodes.length = 3 := by
  refine ⟨?_, ?_, by decide, by decide⟩
  · rw [nodeNames_sankeyData]
    exact nodup_arrayFromSet _
  · intro n
    rw [nodeNames_sankeyData, mem_arrayFromSet, mem_endpoints]

/-- C2: in the derived Sankey graph every link's source and every link's target is the name
of some node of the derived node list. -/
theorem sankey_links_reference_nodes (edges : List JourneyEdge) :
    ∀ l ∈ (sankeyData edges).links,
      (∃ n ∈ (sankeyData edges).nodes, n.name = l.source)
      ∧ (∃ n ∈ (sankeyData edges).nodes, n.name = l.target) := by
  intro l hl
  have hmem : ∀ x : String, x ∈ (sankeyData edges).nodeNames →
      ∃ n ∈ (sankeyData edges).nodes, n.name = x := by
    intro x hx
    unfold SankeyData.nodeNames at hx
    rw [List.mem_map] at hx
    exact hx
  have hl2 : ∃ e ∈ edges, (⟨e.source, e.target, e.value⟩ : SankeyLink) = l := by
    simpa [sankeyData] using hl
  obtain ⟨e, he, rfl⟩ := hl2
  constructor
  · apply hmem
    rw [nodeNames_sankeyData, mem_arrayFromSet, mem_endpoints]
    exact ⟨e, he, Or.inl rfl⟩
  · apply hmem
    rw [nodeNames_sankeyData, mem_arrayFromSet, mem_endpoints]
    exact ⟨e, he, Or.inr rfl⟩

theorem sankey_links_reference_nodes_witness :
    (⟨"Y", "Z", 3⟩ : SankeyLink) ∈ (sankeyData [⟨"X", "Y", 5⟩, ⟨"Y", "Z", 3⟩]).links
    ∧ (∃ n ∈ (sankeyData [⟨"X", "Y", 5⟩, ⟨"Y", "Z", 3⟩]).nodes, n.name = "Y")
    ∧ (∃ n ∈ (sankeyData [⟨"X", "Y", 5⟩, ⟨"Y", "Z", 3⟩]).nodes, n.name = "Z") :=
  ⟨by decide,
   sankey_links_reference_nodes [⟨"X", "Y", 5⟩, ⟨"Y", "Z", 3⟩] ⟨"Y", "Z", 3⟩ (by decide)⟩

/-- C3: the derived link list mirrors the edge list: same length, and at every index the
link has the source, target and value of the edge at that index. -/
theorem sankey_links_mirror_edges (edges : List JourneyEdge) :
    (sankeyData edges).links.length = edges.length
    ∧ ∀ i : Nat, (sankeyData edges).links[i]?
        = (edges[i]?).map (fun e => (⟨e.source, e.target, e.value⟩ : SankeyLink)) := by
  constructor
  · simp [sankeyData]
  · intro i
    simp [sankeyData]

/-! ## The load cycle -/

theorem promiseAll_eq_none_of_failed {α β γ : Type}
    (r1 : FetchResult α) (r2 : FetchResult β) (r3 : FetchResult γ)
    (h : (∃ e, r1 = .failed e) ∨ (∃ e, r2 = .failed e) ∨ (∃ e, r3 = .failed e)) :
    promiseAll r1 r2 r3 = none := by
  rcases h with ⟨e, rfl⟩ | ⟨e, rfl⟩ | ⟨e, rfl⟩
  · rfl
  · cases r1 <;> rfl
  · cases r1 <;> cases r2 <;> rfl

theorem loadData_all_bodies (s : ViewState) (o : Option OverviewStats)
    (r : Option RevenueReport) (e : Option (List JourneyEdge)) :
    loadData s (.body o) (.body r) (.body e) = ⟨o, r, e, false⟩ := rfl

/-! ## The overview child -/

theorem overviewSlot_of_complete (ov : Option OverviewStats) (h : overviewComplete ov = true) :
    ∃ slot, overviewSlot ov = .ok slot := by
  rcases ov with _ | ⟨_ | rev, _ | orders⟩
  · exact ⟨_, rfl⟩
  · exact ⟨_, rfl⟩
  · exact ⟨_, rfl⟩
  · have hz : rev = 0 := by simpa [overviewComplete] using h
    exact ⟨.zeroText, by simp [overviewSlot, hz]⟩
  · by_cases hz : rev = 0
    · exact ⟨.zeroText, by simp [overviewSlot, hz]⟩
    · exact ⟨.block rev orders, by simp [overviewSlot, hz]⟩

theorem overviewSlot_of_incomplete (ov : Option OverviewStats)
    (h : overviewComplete ov = false) :
    overviewSlot ov = .error (.typeError "toLocaleString") := by
  rcases ov with _ | ⟨_ | rev, _ | orders⟩
  · simp [overviewComplete] at h
  · simp [overviewComplete] at h
  · simp [overviewComplete] at h
  · have hz : rev ≠ 0 := by simpa [overviewComplete] using h
    simp [overviewSlot, hz]
  · simp [overviewComplete] at h

theorem overviewSlot_block_iff (ov : Option OverviewStats) (a b : Int) :
    overviewSlot ov = .ok (.block a b)
      ↔ ∃ o, ov = some o ∧ o.total_revenue = some a ∧ a ≠ 0 ∧ o.total_orders = some b := by
  rcases ov with _ | ⟨_ | rev, _ | orders⟩
  · simp [overviewSlot]
  · simp [overviewSlot]
  · simp [overviewSlot]
  · by_cases hz : rev = 0 <;> simp [overviewSlot, hz]
  · by_cases hz : rev = 0
    · subst hz
      simp only [overviewSlot, if_true, Option.some.injEq, exists_eq_left']
      constructor
      · intro h
        cases h
      · rintro ⟨h1, h2, _⟩
        exact absurd h1.symm h2
    · simp only [overviewSlot, hz, if_false, Except.ok.injEq, OverviewSlot.block.injEq,
        Option.some.injEq, exists_eq_left']
      constructor
      · rintro ⟨rfl, rfl⟩
        exact ⟨rfl, hz, rfl⟩
      · rintro ⟨h1, _, h3⟩
        exact ⟨h1, h3⟩

theorem overviewSlot_zero (o : OverviewStats) (h : o.total_revenue = some 0) :
    overviewSlot (some o) = .ok .zeroText := by
  obtain ⟨rev, orders⟩ := o
  simp only at h
  subst h
  simp [overviewSlot]

/-! ## Rendering a ready state -/

theorem render_of_ready (s : ViewState) (es : List JourneyEdge) (slot : OverviewSlot)
    (hready : s.loading = false) (hov : overviewSlot s.overview = .ok slot)
    (hedges : s.edges = some es) :
    render s = .ok (.dashboard ⟨slot, categorySection s.revenue, monthlySection s.revenue,
      if es.length > 0 then
        some ⟨"Customer Journey Flow (Product Transitions)", sankeyData es, 20⟩
      else none⟩) := by
  unfold render sankeySection
  rw [hready, hov, hedges]
  by_cases h : es.length > 0 <;> simp [h]

theorem render_ne_loadingScreen (s : ViewState) (hready : s.loading = false) :
    render s ≠ .ok .loadingScreen := by
  unfold render
  rw [hready]
  simp only [Bool.false_eq_true, if_false]
  cases overviewSlot s.overview with
  | error err => simp
  | ok ov =>
    cases sankeySection s.edges <;> simp

/-! ## The chart sections -/

theorem length_pos_iff_ne_nil {α : Type} (l : List α) : l.length > 0 ↔ l ≠ [] := by
  cases l <;> simp

theorem categorySection_of_nonempty (r : RevenueReport) (cats : List CategoryAmount)
    (hc : r.by_category = some cats) (hne : cats ≠ []) :
    categorySection (some r)
      = some ⟨"Revenue by Category", cats, "category", "amount", "#4f46e5"⟩ := by
  unfold categorySection
  simp only [hc]
  rw [if_pos ((length_pos_iff_ne_nil cats).mpr hne)]

theorem monthlySection_of_nonempty (r : RevenueReport) (months : List MonthAmount)
    (hm : r.monthly = some months) (hne : months ≠ []) :
    monthlySection (some r)
      = some ⟨"Monthly Revenue Trend", months, "month", "amount", "#16a34a"⟩ := by
  unfold monthlySection
  simp only [hm]
  rw [if_pos ((length_pos_iff_ne_nil months).mpr hne)]

theorem categorySection_isSome_iff (revenue : Option RevenueReport) :
    (categorySection revenue).isSome
      ↔ ∃ r l, revenue = some r ∧ r.by_category = some l ∧ l ≠ [] := by
  unfold categorySection
  cases revenue with
  | none => simp
  | some r =>
    cases hbc : r.by_category with
    | none => simp [hbc]
    | some l => cases l <;> simp [hbc]

theorem monthlySection_isSome_iff (revenue : Option RevenueReport) :
    (monthlySection revenue).isSome
      ↔ ∃ r l, revenue = some r ∧ r.monthly = some l ∧ l ≠ [] := by
  unfold monthlySection
  cases revenue with
  | none => simp
  | some r =>
    cases hbc : r.monthly with
    | none => simp [hbc]
    | some l => cases l <;> simp [hbc]

theorem categorySection_congr (rev1 rev2 : Option RevenueReport)
    (h : rev1.bind (fun r => r.by_category) = rev2.bind (fun r => r.by_category)) :
    categorySection rev1 = categorySection rev2 := by
  have key : ∀ rev : Option RevenueReport, categorySection rev
      = match rev.bind (fun r => r.by_category) with
        | none => none
        | some l =>
          if l.length > 0 then
            some ⟨"Revenue by Category", l, "category", "amount", "#4f46e5"⟩
          else none := by
    intro rev
    unfold categorySection
    cases rev with
    | none => rfl
    | some r => cases hbc : r.by_category <;> simp [hbc]
  rw [key rev1, key rev2, h]

theorem monthlySection_congr (rev1 rev2 : Option RevenueReport)
    (h : rev1.bind (fun r => r.monthly) = rev2.bind (fun r => r.monthly)) :
    monthlySection rev1 = monthlySection rev2 := by
  have key : ∀ rev : Option RevenueReport, monthlySection rev
      = match rev.bind (fun r => r.monthly) with
        | none => none
        | some l =>
          if l.length > 0 then
            some ⟨"Monthly Revenue Trend", l, "month", "amount", "#16a34a"⟩
          else none := by
    intro rev
    unfold monthlySection
    cases rev with
    | none => rfl
    | some r => cases hbc : r.monthly <;> simp [hbc]
  rw [key rev1, key rev2, h]

/-! ## The load cycle: leaving the loading state, failures -/

/-- C4: whatever the outcome of each of the three fetches, the load cycle ends with the
loading flag false, and the view rendered from the resulting state is not the loading
screen. -/
theorem loadData_always_leaves_loading (s : ViewState)
    (ov : FetchResult (Option OverviewStats))
    (rev : FetchResult (Option RevenueReport))
    (ed : FetchResult (Option (List JourneyEdge))) :
    (loadData s ov rev ed).loading = false
    ∧ render (loadData s ov rev ed) ≠ .ok .loadingScreen :=
  ⟨rfl, render_ne_loadingScreen _ rfl⟩

/-- C5, as stated, fails: with the overview and edge fetches successful and the revenue
fetch failing, neither successful body is stored; the state keeps its prior cells and the
ready view shows no section. -/
theorem partial_results_not_stored :
    (loadData initialState (.body (some ⟨some 100, some 3⟩)) (.failed .networkError)
        (.body (some [⟨"X", "Y", 5⟩]))).overview = none
    ∧ (loadData initialState (.body (some ⟨some 100, some 3⟩)) (.failed .networkError)
        (.body (some [⟨"X", "Y", 5⟩]))).edges = some []
    ∧ render (loadData initialState (.body (some ⟨some 100, some 3⟩)) (.failed .networkError)
        (.body (some [⟨"X", "Y", 5⟩])))
      = .ok (.dashboard ⟨.nothing, none, none, none⟩) := by
  refine ⟨rfl, rfl, rfl⟩

/-- C5, amended: when at least one of the three fetches fails, the load cycle stores none
of the bodies: overview, revenue and edges keep the values they had before the load, and
only the loading flag changes, to false. -/
theorem loadData_failure_keeps_prior_cells (s : ViewState)
    (ov : FetchResult (Option OverviewStats))
    (rev : FetchResult (Option RevenueReport))
    (ed : FetchResult (Option (List JourneyEdge)))
    (hfail : (∃ e, ov = .failed e) ∨ (∃ e, rev = .failed e) ∨ (∃ e, ed = .failed e)) :
    loadData s ov rev ed = ⟨s.overview, s.revenue, s.edges, false⟩ := by
  unfold loadData
  rw [promiseAll_eq_none_of_failed ov rev ed hfail]

theorem loadData_failure_keeps_prior_cells_witness :
    ((∃ e, (FetchResult.body (some ⟨some 100, some 3⟩) :
            FetchResult (Option OverviewStats)) = .failed e)
      ∨ (∃ e, (FetchResult.failed .nonJsonBody : FetchResult (Option RevenueReport)) = .failed e)
      ∨ (∃ e, (FetchResult.body (some [⟨"X", "Y", 5⟩]) :
            FetchResult (Option (List JourneyEdge))) = .failed e))
    ∧ loadData initialState (.body (some ⟨some 100, some 3⟩)) (.failed .nonJsonBody)
        (.body (some [⟨"X", "Y", 5⟩]))
      = ⟨none, none, some [], false⟩ :=
  ⟨Or.inr (Or.inl ⟨.nonJsonBody, rfl⟩),
   loadData_failure_keeps_prior_cells initialState (.body (some ⟨some 100, some 3⟩))
     (.failed .nonJsonBody) (.body (some [⟨"X", "Y", 5⟩]))
     (Or.inr (Or.inl ⟨.nonJsonBody, rfl⟩))⟩

/-! ## Rendering a loaded state -/

/-- C6, as stated, fails: an empty edge list is a payload of the documented shape, and with
it the load stores the three bodies and clears loading, but the rendered view has no Sankey
section. -/
theorem valid_payloads_without_sankey :
    render (loadData initialState (.body (some ⟨some 100, some 3⟩))
        (.body (some ⟨some [⟨"A", 100⟩], some [⟨"2024-01", 100⟩]⟩)) (.body (some [])))
      = .ok (.dashboard ⟨.block 100 3,
          some ⟨"Revenue by Category", [⟨"A", 100⟩], "category", "amount", "#4f46e5"⟩,
          some ⟨"Monthly Revenue Trend", [⟨"2024-01", 100⟩], "month", "amount", "#16a34a"⟩,
          none⟩) := by
  rfl

/-- C6, amended: for every overview object carrying its two totals, every revenue report
whose by_category and monthly sequences are non-empty and every non-empty edge list, the
load cycle stores the three bodies unchanged, sets loading to false, and the rendered view
contains the category bar chart, the monthly bar chart and the Sankey diagram. -/
theorem load_valid_payloads_renders_all (s : ViewState) (total_revenue total_orders : Int)
    (cats : List CategoryAmount) (months : List MonthAmount) (es : List JourneyEdge)
    (hcats : cats ≠ []) (hmonths : months ≠ []) (hes : es ≠ []) :
    loadData s (.body (some ⟨some total_revenue, some total_orders⟩))
        (.body (some ⟨some cats, some months⟩)) (.body (some es))
      = ⟨some ⟨some total_revenue, some total_orders⟩, some ⟨some cats, some months⟩,
          some es, false⟩
    ∧ render (loadData s (.body (some ⟨some total_revenue, some total_orders⟩))
        (.body (some ⟨some cats, some months⟩)) (.body (some es)))
      = .ok (.dashboard ⟨
          if total_revenue = 0 then .zeroText else .block total_revenue total_orders,
          some ⟨"Revenue by Category", cats, "category", "amount", "#4f46e5"⟩,
          some ⟨"Monthly Revenue Trend", months, "month", "amount", "#16a34a"⟩,
          some ⟨"Customer Journey Flow (Product Transitions)", sankeyData es, 20⟩⟩) := by
  refine ⟨rfl, ?_⟩
  have hov : overviewSlot (some ⟨some total_revenue, some total_orders⟩)
      = .ok (if total_revenue = 0 then .zeroText else .block total_revenue total_orders) := by
    by_cases hz : total_revenue = 0 <;> simp [overviewSlot, hz]
  rw [loadData_all_bodies, render_of_ready _ es _ rfl hov rfl]
  simp only []
  rw [categorySection_of_nonempty ⟨some cats, some months⟩ cats rfl hcats,
    monthlySection_of_nonempty ⟨some cats, some months⟩ months rfl hmonths,
    if_pos ((length_pos_iff_ne_nil es).mpr hes)]

theorem load_valid_payloads_renders_all_witness :
    ([⟨"A", 100⟩, ⟨"B", 50⟩] : List CategoryAmount) ≠ []
    ∧ ([⟨"2024-01", 150⟩] : List MonthAmount) ≠ []
    ∧ ([⟨"X", "Y", 5⟩, ⟨"Y", "Z", 3⟩] : List JourneyEdge) ≠ []
    ∧ (loadData initialState (.body (some ⟨some 150, some 2⟩))
          (.body (some ⟨some [⟨"A", 100⟩, ⟨"B", 50⟩], some [⟨"2024-01", 150⟩]⟩))
          (.body (some [⟨"X", "Y", 5⟩, ⟨"Y", "Z", 3⟩]))
        = ⟨some ⟨some 150, some 2⟩,
            some ⟨some [⟨"A", 100⟩, ⟨"B", 50⟩], some [⟨"2024-01", 150⟩]⟩,
            some [⟨"X", "Y", 5⟩, ⟨"Y", "Z", 3⟩], false⟩
      ∧ render (loadData initialState (.body (some ⟨some 150, some 2⟩))
          (.body (some ⟨some [⟨"A", 100⟩, ⟨"B", 50⟩], some [⟨"2024-01", 150⟩]⟩))
          (.body (some [⟨"X", "Y", 5⟩, ⟨"Y", "Z", 3⟩])))
        = .ok (.dashboard ⟨if (150 : Int) = 0 then .zeroText else .block 150 2,
            some ⟨"Revenue by Category", [⟨"A", 100⟩, ⟨"B", 50⟩], "category", "amount",
              "#4f46e5"⟩,
            some ⟨"Monthly Revenue Trend", [⟨"2024-01", 150⟩], "month", "amount", "#16a34a"⟩,
            some ⟨"Customer Journey Flow (Product Transitions)",
              sankeyData [⟨"X", "Y", 5⟩, ⟨"Y", "Z", 3⟩], 20⟩⟩)) :=
  ⟨by decide, by decide, by decide,
   load_valid_payloads_renders_all initialState 150 2 [⟨"A", 100⟩, ⟨"B", 50⟩]
     [⟨"2024-01", 150⟩] [⟨"X", "Y", 5⟩, ⟨"Y", "Z", 3⟩] (by decide) (by decide) (by decide)⟩

/-! ## The render guards -/

/-- C7, as stated, fails.  When `/journey/edges` answers with the JSON body null, the load
leaves a ready view state whose edge list is missing, and the render of that state does not
omit the Sankey section, it throws on `edges.length`.  And with edges = [] the render does
not succeed for every ready view state: for an overview with a truthy total_revenue and no
total_orders it throws on `total_orders.toLocaleString`. -/
theorem render_null_edges_throws :
    loadData initialState (.body (some ⟨some 100, some 3⟩))
        (.body (some ⟨some [⟨"A", 100⟩], some [⟨"2024-01", 100⟩]⟩)) (.body none)
      = ⟨some ⟨some 100, some 3⟩, some ⟨some [⟨"A", 100⟩], some [⟨"2024-01", 100⟩]⟩,
          none, false⟩
    ∧ render (loadData initialState (.body (some ⟨some 100, some 3⟩))
        (.body (some ⟨some [⟨"A", 100⟩], some [⟨"2024-01", 100⟩]⟩)) (.body none))
      = .error (.typeError "length")
    ∧ render ⟨some ⟨some 250, none⟩, some ⟨some [⟨"A", 100⟩], some [⟨"2024-01", 100⟩]⟩,
        some [], false⟩
      = .error (.typeError "toLocaleString") := by
  exact ⟨rfl, rfl, rfl⟩

/-- C7, amended: for every ready view state whose edge list is an array of edge objects and
whose overview is null, has a falsy total_revenue or carries total_orders, the render succeeds; each chart
section is present exactly when its own backing data is present and non-empty; the category
section is determined by by_category alone, the monthly section by monthly alone and the
Sankey section by the edge list alone; a null revenue report, a missing by_category or
monthly field or an empty edge list omits the section; and with edges = [] the render
succeeds, has no Sankey section, and has the same two bar-chart sections. -/
theorem render_sections_guarded (s : ViewState) (es : List JourneyEdge)
    (hready : s.loading = false) (hedges : s.edges = some es)
    (hov : overviewComplete s.overview = true) :
    ∃ d : Dashboard, render s = .ok (.dashboard d)
      ∧ (d.category.isSome ↔ ∃ r l, s.revenue = some r ∧ r.by_category = some l ∧ l ≠ [])
      ∧ (d.monthly.isSome ↔ ∃ r l, s.revenue = some r ∧ r.monthly = some l ∧ l ≠ [])
      ∧ (d.sankey.isSome ↔ es ≠ [])
      ∧ (∀ (ov : Option OverviewStats) (rev : Option RevenueReport) (es2 : List JourneyEdge),
          overviewComplete ov = true →
          rev.bind (fun r => r.by_category) = s.revenue.bind (fun r => r.by_category) →
          ∃ d2, render ⟨ov, rev, some es2, false⟩ = .ok (.dashboard d2)
            ∧ d2.category = d.category)
      ∧ (∀ (ov : Option OverviewStats) (rev : Option RevenueReport) (es2 : List JourneyEdge),
          overviewComplete ov = true →
          rev.bind (fun r => r.monthly) = s.revenue.bind (fun r => r.monthly) →
          ∃ d2, render ⟨ov, rev, some es2, false⟩ = .ok (.dashboard d2)
            ∧ d2.monthly = d.monthly)
      ∧ (∀ (ov : Option OverviewStats) (rev : Option RevenueReport),
          overviewComplete ov = true →
          ∃ d2, render ⟨ov, rev, some es, false⟩ = .ok (.dashboard d2)
            ∧ d2.sankey = d.sankey)
      ∧ (s.revenue = none → d.category = none ∧ d.monthly = none)
      ∧ (∀ r, s.revenue = some r → r.by_category = none → d.category = none)
      ∧ (∀ r, s.revenue = some r → r.monthly = none → d.monthly = none)
      ∧ (es = [] → d.sankey = none)
      ∧ (∃ d0, render ⟨s.overview, s.revenue, some [], false⟩ = .ok (.dashboard d0)
            ∧ d0.sankey = none ∧ d0.category = d.category ∧ d0.monthly = d.monthly) := by
  obtain ⟨slot, hslot⟩ := overviewSlot_of_complete s.overview hov
  refine ⟨_, render_of_ready s es slot hready hslot hedges,
    ?_, ?_, ?_, ?_, ?_, ?_, ?_, ?_, ?_, ?_, ?_⟩
  · exact categorySection_isSome_iff s.revenue
  · exact monthlySection_isSome_iff s.revenue
  · cases es <;> simp
  · intro ov rev es2 hc h
    obtain ⟨slot2, hslot2⟩ := overviewSlot_of_complete ov hc
    exact ⟨_, render_of_ready ⟨ov, rev, some es2, false⟩ es2 slot2 rfl hslot2 rfl,
      categorySection_congr rev s.revenue h⟩
  · intro ov rev es2 hc h
    obtain ⟨slot2, hslot2⟩ := overviewSlot_of_complete ov hc
    exact ⟨_, render_of_ready ⟨ov, rev, some es2, false⟩ es2 slot2 rfl hslot2 rfl,
      monthlySection_congr rev s.revenue h⟩
  · intro ov rev hc
    obtain ⟨slot2, hslot2⟩ := overviewSlot_of_complete ov hc
    exact ⟨_, render_of_ready ⟨ov, rev, some es, false⟩ es slot2 rfl hslot2 rfl, rfl⟩
  · intro h
    rw [h]
    exact ⟨rfl, rfl⟩
  · intro r hr hbc
    simp only [hr, categorySection, hbc]
  · intro r hr hm
    simp only [hr, monthlySection, hm]
  · intro h
    rw [h]
    rfl
  · exact ⟨_, render_of_ready ⟨s.overview, s.revenue, some [], false⟩ [] slot rfl hslot rfl,
      rfl, rfl, rfl⟩

theorem render_sections_guarded_witness :
    (⟨none, some ⟨some [⟨"A", 100⟩, ⟨"B", 50⟩], none⟩, some [], false⟩ : ViewState).loading
        = false
    ∧ (⟨none, some ⟨some [⟨"A", 100⟩, ⟨"B", 50⟩], none⟩, some [], false⟩ : ViewState).edges
        = some []
    ∧ overviewComplete
        (⟨none, some ⟨some [⟨"A", 100⟩, ⟨"B", 50⟩], none⟩, some [], false⟩ : ViewState).overview
        = true
    ∧ render ⟨none, some ⟨some [⟨"A", 100⟩, ⟨"B", 50⟩], none⟩, some [], false⟩
        = .ok (.dashboard ⟨.nothing,
            some ⟨"Revenue by Category", [⟨"A", 100⟩, ⟨"B", 50⟩], "category", "amount",
              "#4f46e5"⟩, none, none⟩)
    ∧ ∃ d : Dashboard,
        render ⟨none, some ⟨some [⟨"A", 100⟩, ⟨"B", 50⟩], none⟩, some [], false⟩
          = .ok (.dashboard d)
        ∧ (d.sankey.isSome ↔ ([] : List JourneyEdge) ≠ []) := by
  refine ⟨rfl, rfl, rfl, rfl, ?_⟩
  obtain ⟨d, hd, _, _, hs, _⟩ :=
    render_sections_guarded ⟨none, some ⟨some [⟨"A", 100⟩, ⟨"B", 50⟩], none⟩, some [], false⟩
      [] rfl rfl rfl
  exact ⟨d, hd, hs⟩

/-! ## The data handed to the bar charts -/

/-- C8: for every revenue report with a non-empty by_category sequence the category bar
chart receives exactly that sequence as its data, keyed by category and amount, and for
every revenue report with a non-empty monthly sequence the monthly bar chart receives
exactly that sequence, keyed by month and amount; in a ready view whose edge list is an
array and whose overview child does not throw these are the charts of the rendered
dashboard. -/
theorem bar_chart_data_passthrough (rc rm : RevenueReport)
    (cats : List CategoryAmount) (months : List MonthAmount)
    (hc : rc.by_category = some cats) (hcne : cats ≠ [])
    (hm : rm.monthly = some months) (hmne : months ≠ []) :
    categorySection (some rc)
        = some ⟨"Revenue by Category", cats, "category", "amount", "#4f46e5"⟩
    ∧ monthlySection (some rm)
        = some ⟨"Monthly Revenue Trend", months, "month", "amount", "#16a34a"⟩
    ∧ (∀ (ov : Option OverviewStats) (es : List JourneyEdge), overviewComplete ov = true →
        ∃ d, render ⟨ov, some rc, some es, false⟩ = .ok (.dashboard d)
          ∧ (d.category.map (fun c => c.data)) = some cats)
    ∧ (∀ (ov : Option OverviewStats) (es : List JourneyEdge), overviewComplete ov = true →
        ∃ d, render ⟨ov, some rm, some es, false⟩ = .ok (.dashboard d)
          ∧ (d.monthly.map (fun c => c.data)) = some months) := by
  have h1 := categorySection_of_nonempty rc cats hc hcne
  have h2 := monthlySection_of_nonempty rm months hm hmne
  refine ⟨h1, h2, ?_, ?_⟩
  · intro ov es hov
    obtain ⟨slot, hslot⟩ := overviewSlot_of_complete ov hov
    refine ⟨_, render_of_ready ⟨ov, some rc, some es, false⟩ es slot rfl hslot rfl, ?_⟩
    simp only [h1, Option.map_some']
  · intro ov es hov
    obtain ⟨slot, hslot⟩ := overviewSlot_of_complete ov hov
    refine ⟨_, render_of_ready ⟨ov, some rm, some es, false⟩ es slot rfl hslot rfl, ?_⟩
    simp only [h2, Option.map_some']

theorem bar_chart_data_passthrough_witness :
    (categorySection (some ⟨some [⟨"A", 100⟩, ⟨"B", 50⟩], some [⟨"2024-01", 150⟩]⟩)).map
        (fun c => c.data.map (fun b => b.amount)) = some [100, 50]
    ∧ (monthlySection (some ⟨some [⟨"A", 100⟩, ⟨"B", 50⟩], some [⟨"2024-01", 150⟩]⟩)).map
        (fun c => c.data) = some [⟨"2024-01", 150⟩] := by
  have h := bar_chart_data_passthrough
    ⟨some [⟨"A", 100⟩, ⟨"B", 50⟩], some [⟨"2024-01", 150⟩]⟩
    ⟨some [⟨"A", 100⟩, ⟨"B", 50⟩], some [⟨"2024-01", 150⟩]⟩
    [⟨"A", 100⟩, ⟨"B", 50⟩] [⟨"2024-01", 150⟩] rfl (by decide) rfl (by decide)
  constructor
  · rw [h.1]
    rfl
  · rw [h.2.1]
    rfl

/-! ## Idempotence of a successful load -/

/-- C9: a successful load with given payloads replaces overview, revenue and edges in full,
so its result does not depend on the prior state, and running it twice in sequence leaves
the same view state, the same rendered view and the same derived chart data as running it
once. -/
theorem loadData_idempotent (s s2 : ViewState) (o : Option OverviewStats)
    (r : Option RevenueReport) (e : Option (List JourneyEdge)) :
    loadData (loadData s (.body o) (.body r) (.body e)) (.body o) (.body r) (.body e)
        = loadData s (.body o) (.body r) (.body e)
    ∧ loadData s (.body o) (.body r) (.body e) = loadData s2 (.body o) (.body r) (.body e)
    ∧ loadData s (.body o) (.body r) (.body e) = ⟨o, r, e, false⟩
    ∧ render (loadData (loadData s (.body o) (.body r) (.body e))
          (.body o) (.body r) (.body e))
        = render (loadData s (.body o) (.body r) (.body e))
    ∧ categorySection (loadData (loadData s (.body o) (.body r) (.body e))
          (.body o) (.body r) (.body e)).revenue
        = categorySection (loadData s (.body o) (.body r) (.body e)).revenue
    ∧ monthlySection (loadData (loadData s (.body o) (.body r) (.body e))
          (.body o) (.body r) (.body e)).revenue
        = monthlySection (loadData s (.body o) (.body r) (.body e)).revenue
    ∧ sankeySection (loadData (loadData s (.body o) (.body r) (.body e))
          (.body o) (.body r) (.body e)).edges
        = sankeySection (loadData s (.body o) (.body r) (.body e)).edges := by
  refine ⟨rfl, rfl, rfl, rfl, rfl, rfl, rfl⟩

/-! ## The overview block -/

/-- C10, as stated, fails: after a load whose overview body has a truthy total_revenue and
no total_orders, overview is loaded and its total_revenue is truthy, yet the block is not
shown: building it throws on `total_orders.toLocaleString`. -/
theorem overview_without_orders_not_shown :
    loadData initialState (.body (some ⟨some 100, none⟩))
        (.body (some ⟨some [⟨"A", 100⟩], none⟩)) (.body (some []))
      = ⟨some ⟨some 100, none⟩, some ⟨some [⟨"A", 100⟩], none⟩, some [], false⟩
    ∧ overviewSlot (some ⟨some 100, none⟩) = .error (.typeError "toLocaleString")
    ∧ render (loadData initialState (.body (some ⟨some 100, none⟩))
        (.body (some ⟨some [⟨"A", 100⟩], none⟩)) (.body (some [])))
      = .error (.typeError "toLocaleString") := by
  exact ⟨rfl, rfl, rfl⟩

/-- C10, amended: in the ready view of a state whose edge list is an array of edge objects,
the overview block is shown exactly when overview is loaded, its total_revenue is truthy and its
total_orders is present, and it then shows these two totals; for every loaded overview whose
total_revenue is 0 the render succeeds and the block is not shown, whatever total_orders is,
present or not (the page shows the text 0 in its place). -/
theorem overview_block_guard (s : ViewState) (es : List JourneyEdge)
    (hready : s.loading = false) (hedges : s.edges = some es) :
    (∀ a b : Int, (∃ d, render s = .ok (.dashboard d) ∧ d.overview = .block a b)
        ↔ ∃ o, s.overview = some o ∧ o.total_revenue = some a ∧ a ≠ 0
            ∧ o.total_orders = some b)
    ∧ (∀ o, s.overview = some o → o.total_revenue = some 0 →
        ∃ d, render s = .ok (.dashboard d) ∧ d.overview = .zeroText
          ∧ ∀ a b, d.overview ≠ .block a b) := by
  constructor
  · intro a b
    rw [← overviewSlot_block_iff]
    constructor
    · rintro ⟨d, hd, hblock⟩
      cases hslot : overviewSlot s.overview with
      | error err =>
        unfold render at hd
        rw [hready, hslot] at hd
        simp at hd
      | ok slot =>
        rw [render_of_ready s es slot hready hslot hedges] at hd
        simp only [Except.ok.injEq, View.dashboard.injEq] at hd
        rw [← hd] at hblock
        simp only at hblock
        rw [hblock]
    · intro hslot
      exact ⟨_, render_of_ready s es _ hready hslot hedges, rfl⟩
  · intro o ho hz
    have hslot : overviewSlot s.overview = .ok .zeroText := by
      rw [ho]
      exact overviewSlot_zero o hz
    refine ⟨_, render_of_ready s es _ hready hslot hedges, rfl, ?_⟩
    intro a b h
    cases h

theorem overview_block_guard_witness :
    render ⟨some ⟨some 0, some 7⟩, none, some [], false⟩
        = .ok (.dashboard ⟨.zeroText, none, none, none⟩)
    ∧ render ⟨some ⟨some 12, some 7⟩, none, some [], false⟩
        = .ok (.dashboard ⟨.block 12 7, none, none, none⟩)
    ∧ (∃ d : Dashboard,
        render ⟨some ⟨some 0, some 7⟩, none, some [], false⟩ = .ok (.dashboard d)
          ∧ d.overview = .zeroText ∧ ∀ a b, d.overview ≠ .block a b)
    ∧ (∃ d : Dashboard,
        render ⟨some ⟨some 12, some 7⟩, none, some [], false⟩ = .ok (.dashboard d)
          ∧ d.overview = .block 12 7) :=
  ⟨rfl, rfl,
   (overview_block_guard ⟨some ⟨some 0, some 7⟩, none, some [], false⟩ [] rfl rfl).2
     ⟨some 0, some 7⟩ rfl rfl,
   ((overview_block_guard ⟨some ⟨some 12, some 7⟩, none, some [], false⟩ [] rfl rfl).1
     12 7).mpr ⟨⟨some 12, some 7⟩, rfl, rfl, by decide, rfl⟩⟩

end App
